import Mathlib

/-!
A Lean model of the core logic of `src/RFD_script.py` (the renewable fuel
declaration batch generator), together with theorems settling the stated
properties of its specification.  Pure Python string processing is embedded
directly; the Excel engine and the file system are modelled by explicit
oracles (export success, per-attempt deletion outcomes) and by recording the
observable effects (paths saved, paths registered for cleanup, reported
errors) in result structures.
-/

set_option maxHeartbeats 1000000

/-- Characters that Python's default `str.strip()`, `str.split()` and
`str.rstrip()` treat as whitespace (ASCII range). -/
def isPySpace (c : Char) : Bool :=
  c == ' ' || c == '\t' || c == '\n' || c == '\r' || c == Char.ofNat 11 || c == Char.ofNat 12

/-- Python `s.split(" to ")` on the character list of `s`: scan left to
right, cutting at each non-overlapping occurrence of the four-character
separator `" to "`.  The accumulator holds the current fragment reversed. -/
def splitToAux : List Char → List Char → List (List Char)
  | acc, ' ' :: 't' :: 'o' :: ' ' :: rest => acc.reverse :: splitToAux [] rest
  | acc, c :: rest => splitToAux (c :: acc) rest
  | acc, [] => [acc.reverse]

/-- Python `s.split(" to ")` (`RFD_script.py` line 118). -/
def pySplitTo (s : String) : List String :=
  (splitToAux [] s.data).map fun l => ⟨l⟩

/-- Python `s.strip()`: drop leading and trailing whitespace. -/
def pyStrip (s : String) : String :=
  ⟨((s.data.dropWhile isPySpace).reverse.dropWhile isPySpace).reverse⟩

/-- Helper for Python's no-argument `str.split()`: the accumulator holds the
current word reversed; words are maximal runs of non-whitespace. -/
def wordsAux : List Char → List Char → List (List Char)
  | acc, [] => match acc with
    | [] => []
    | _ => [acc.reverse]
  | acc, c :: rest =>
    if isPySpace c then
      match acc with
      | [] => wordsAux [] rest
      | _ => acc.reverse :: wordsAux [] rest
    else wordsAux (c :: acc) rest

/-- Python `s.split()` (no separator): whitespace-delimited words, with no
empty fragments (`RFD_script.py` line 120). -/
def pyWords (s : String) : List String :=
  (wordsAux [] s.data).map fun l => ⟨l⟩

/-- `list(calendar.month_abbr)` in the C locale: the empty string at index 0
followed by the twelve English month abbreviations (`RFD_script.py`
lines 123-124). -/
def monthAbbr : List String :=
  ["", "Jan", "Feb", "Mar", "Apr", "May", "Jun", "Jul", "Aug", "Sep", "Oct", "Nov", "Dec"]

/-- `process_declaration_period` (`RFD_script.py` lines 103-134).  Splits on
`" to "`, strips the first fragment, takes the first whitespace-word of the
second fragment, looks both up in `monthAbbr` (Python `list.index`, whose
`ValueError` is caught), and prefixes the inclusive month span.  Any
`IndexError`/`ValueError` (too few fragments, empty second fragment,
unrecognized abbreviation) returns the original string. -/
def process_declaration_period (declaration_period : String) : String :=
  match pySplitTo declaration_period with
  | p0 :: p1 :: _ =>
    match pyWords p1 with
    | w0 :: _ =>
      match monthAbbr.findIdx? (· == pyStrip p0), monthAbbr.findIdx? (· == pyStrip w0) with
      | some start_month_num, some end_month_num =>
        toString ((end_month_num : Int) - (start_month_num : Int) + 1) ++ " months - "
          ++ declaration_period
      | _, _ => declaration_period
    | [] => declaration_period
  | _ => declaration_period

/-- The parse underlying `process_declaration_period`, written as an option
pipeline: the month span computed from the first two `" to "`-fragments, or
`none` when the parse fails at any step. -/
def periodSpan (s : String) : Option Int :=
  ((pySplitTo s).get? 0).bind fun p0 =>
  ((pySplitTo s).get? 1).bind fun p1 =>
  ((pyWords p1).get? 0).bind fun w0 =>
  (monthAbbr.findIdx? (· == pyStrip p0)).bind fun i =>
  (monthAbbr.findIdx? (· == pyStrip w0)).bind fun j =>
  some ((j : Int) - (i : Int) + 1)

/-- The shape predicate stated by the specification for the period formatter:
the input splits on `" to "` into exactly two fragments, and the stripped
first fragment and the first word of the second fragment are both recognized
month abbreviations (`Jan` … `Dec`). -/
def specTwoToken (s : String) : Bool :=
  match pySplitTo s with
  | [p0, p1] =>
    (monthAbbr.drop 1).contains (pyStrip p0) &&
      (match pyWords p1 with
       | w0 :: _ => (monthAbbr.drop 1).contains (pyStrip w0)
       | [] => false)
  | _ => false

/-- The character filter of `sanitize_filename` (`RFD_script.py` line 150):
keep alphanumeric characters, spaces, hyphens and underscores. -/
def keepChar (c : Char) : Bool :=
  c.isAlphanum || c == ' ' || c == '-' || c == '_'

/-- Python `s.rstrip()` on a character list: drop trailing whitespace. -/
def pyRstrip (l : List Char) : List Char :=
  (l.reverse.dropWhile isPySpace).reverse

/-- `sanitize_filename` (`RFD_script.py` lines 136-150): keep only
alphanumeric characters, spaces, hyphens and underscores, then strip
trailing whitespace.  The Python `str(s)` coercion is modelled by taking the
textual form as input. -/
def sanitize_filename (s : String) : String :=
  ⟨pyRstrip (s.data.filter keepChar)⟩

/-- The fields of the extracted `row_data` dictionary that influence the
control flow and the output naming of `create_declaration_for_row`
(`RFD_script.py` lines 76-93).  The volume is `none` when cell D of the row
is empty, in which case `round(None, 1)` raises a `TypeError` while the
`update_data` list is being built (line 229). -/
structure RowData where
  customer_name : String
  certificate_number : String
  declaration_period : String
  volume_of_fuel_supplied : Option ℚ
deriving DecidableEq

/-- The behaviour of the external Excel engine for one row: whether
`wb.api.ExportAsFixedFormat` (the PDF export, `RFD_script.py` line 250)
succeeds or raises. -/
structure Env where
  exportOk : Bool
deriving DecidableEq

/-- `os.path.join(folder, name)` as used for the three per-row paths. -/
def pathJoin (folder name : String) : String :=
  folder ++ "/" ++ name

/-- The per-row transient path
`temp_{row}_Renewable_Fuel_Declaration - {name}.xlsm`
(`RFD_script.py` line 199). -/
def temp_excel_file (output_folder : String) (row_number : Nat) (scn : String) : String :=
  pathJoin output_folder
    ("temp_" ++ (toString row_number ++ "_Renewable_Fuel_Declaration - " ++ scn ++ ".xlsm"))

/-- The output path
`Renewable_Fuel_Declaration - {cert} - {period} - {name}{ext}`
(`RFD_script.py` lines 202 and 205, with `ext` either `.pdf` or `.xlsm`). -/
def declaration_output_file (output_folder scert sper scn ext : String) : String :=
  pathJoin output_folder
    ("Renewable_Fuel_Declaration - " ++ (scert ++ " - " ++ sper ++ " - " ++ scn ++ ext))

/-- The observable outcome of `create_declaration_for_row`:
`ret` is the returned value (`none` models Python `None`), `saved` records
every file-save the function performs in order (the `shutil.copy2` template
copy, the PDF export, `wb.save_as`, or the in-place `wb.save`), and
`registered` records what the function appends to `temp_files_list`. -/
structure CreateResult where
  ret : Option String
  saved : List String
  registered : List String
deriving DecidableEq

/-- `create_declaration_for_row` (`RFD_script.py` lines 156-279), with the
extraction step already performed (`row_data` is the extracted record) and
the Excel engine modelled by `env`.  Control flow follows the source:
an empty customer name returns `None` before any file is created; the
template is copied to the temp path; a missing volume raises while building
`update_data`, and that exception is caught by the broad `except` at
line 270 (so nothing further is saved and nothing is registered); otherwise
the PDF export is attempted when `save_as_pdf`, the editable save happens
when `keep_excel` or as in-place fallback when the export failed, the temp
file is registered only when `save_as_pdf ∧ export succeeded ∧ ¬keep_excel`,
and the function returns the PDF path on export success and the `.xlsm`
output path otherwise. -/
def create_declaration_for_row (env : Env) (row_data : RowData) (row_number : Nat)
    (output_folder : String) (save_as_pdf keep_excel has_temp_files_list : Bool) :
    CreateResult :=
  if row_data.customer_name = "" then ⟨none, [], []⟩
  else
    let saveable_customer_name := sanitize_filename row_data.customer_name
    let saveable_certificate_number := sanitize_filename row_data.certificate_number
    let saveable_declaration_period := sanitize_filename row_data.declaration_period
    let temp_file := temp_excel_file output_folder row_number saveable_customer_name
    let pdf_output_file := declaration_output_file output_folder saveable_certificate_number
      saveable_declaration_period saveable_customer_name ".pdf"
    let excel_output_file := declaration_output_file output_folder saveable_certificate_number
      saveable_declaration_period saveable_customer_name ".xlsm"
    match row_data.volume_of_fuel_supplied with
    | none =>
      ⟨some excel_output_file, [temp_file], []⟩
    | some _ =>
      let pdf_created_successfully := save_as_pdf && env.exportOk
      let saved := [temp_file]
        ++ (if pdf_created_successfully then [pdf_output_file] else [])
        ++ (if keep_excel then [excel_output_file]
            else if save_as_pdf && !pdf_created_successfully then [temp_file] else [])
      let registered :=
        if has_temp_files_list && save_as_pdf && pdf_created_successfully && !keep_excel
        then [temp_file] else []
      ⟨some (if pdf_created_successfully then pdf_output_file else excel_output_file),
        saved, registered⟩

/-- One row of the source table as read by the scanning pass
(`RFD_script.py` lines 322-323): column A (the customer name, with Python
truthiness modelled by non-emptiness) and column E (the FF blend cell:
`none` when the cell is empty, `some none` when present but `float()` raises
`ValueError`, `some (some q)` when it coerces to the number `q`). -/
structure SourceRow where
  name : String
  ff_blend : Option (Option ℚ)
deriving DecidableEq

/-- The eligibility test of the scanning loop (`RFD_script.py`
lines 326-334): the FF blend cell is present, coerces to a float, that float
is at least 0.01, and the customer name is truthy. -/
def row_qualifies (row : SourceRow) : Bool :=
  match row.ff_blend with
  | some (some q) => decide (mkRat 1 100 ≤ q) && !(row.name == "")
  | _ => false

/-- The scanning pass of `process_all_supply_blend_rows` (`RFD_script.py`
lines 314-335): rows 2 through `last_row` inclusive, keeping those that
qualify, in table order. -/
def scanRows (table : Nat → SourceRow) (last_row : Nat) : List Nat :=
  (List.range' 2 (last_row - 1)).filter fun r => row_qualifies (table r)

/-- The outcome of processing one row as seen by the orchestrator loop
(`RFD_script.py` lines 348-365): the call returned `None` (skip), returned a
path after registering some temp files, or raised an exception with a
message. -/
inductive RowOutcome
  | skipped
  | created (path : String) (regs : List String)
  | raised (msg : String)
deriving DecidableEq

/-- One iteration of the orchestrator loop: the accumulator is
`(created_files, error_files, temp_files_to_cleanup)`. -/
def rowStep (proc : Nat → RowOutcome)
    (acc : List String × List (Nat × String) × List String) (row : Nat) :
    List String × List (Nat × String) × List String :=
  match proc row with
  | .skipped => acc
  | .created p regs => (acc.1 ++ [p], acc.2.1, acc.2.2 ++ regs)
  | .raised m => (acc.1, acc.2.1 ++ [(row, m)], acc.2.2)

/-- The observable result of one batch run: the created-file list, the
per-row error list, and the argument of each `cleanup_temp_files`
invocation. -/
structure BatchReport where
  created_files : List String
  error_files : List (Nat × String)
  cleanup_calls : List (List String)
deriving DecidableEq

/-- `process_all_supply_blend_rows` (`RFD_script.py` lines 285-389): scan the
table, process each qualifying row in order (exceptions become error
entries; `None` returns are skipped; paths are collected), then call
`cleanup_temp_files` exactly once with the accumulated temp-file list. -/
def process_all_supply_blend_rows (table : Nat → SourceRow) (last_row : Nat)
    (proc : Nat → RowOutcome) : BatchReport :=
  let rows := scanRows table last_row
  let res := rows.foldl (rowStep proc) ([], [], [])
  ⟨res.1, res.2.1, [res.2.2]⟩

/-- The per-row behaviour the orchestrator sees when
`create_declaration_for_row` runs to completion (its modelled scope: after
extraction, with the engine oracle `env`); the orchestrator always passes
the cleanup list, so `has_temp_files_list` is `true`. -/
def rowOutcomeOfCreate (env : Env) (row_data_of : Nat → RowData) (output_folder : String)
    (save_as_pdf keep_excel : Bool) (row : Nat) : RowOutcome :=
  let res := create_declaration_for_row env (row_data_of row) row output_folder
    save_as_pdf keep_excel true
  match res.ret with
  | none => .skipped
  | some p => .created p res.registered

/-- The outcome of one deletion attempt on one path in `cleanup_temp_files`
(`RFD_script.py` lines 415-423): the path no longer exists
(`os.path.exists` is false, so the loop breaks without deleting), the
removal succeeds, or `os.remove` raises (the file is locked). -/
inductive AttemptOutcome
  | absent
  | removed
  | locked
deriving DecidableEq

/-- What `cleanup_temp_files` does with one path: how many deletion attempts
were performed, whether the path was recorded as impossible to delete
(the for-else branch after 5 failures), and how many 1-second sleeps were
taken (one after each failed attempt). -/
structure CleanOneResult where
  attempts : Nat
  undeleted : Bool
  sleeps : Nat
deriving DecidableEq

/-- The retry loop of `cleanup_temp_files` for one path, starting at attempt
index `i` with `r` attempts remaining out of 5: a locked attempt sleeps and
retries; an absent or removed outcome breaks out of the loop; exhausting the
range records the path as undeleted. -/
def cleanupOneFrom (env : Nat → AttemptOutcome) (i : Nat) : Nat → CleanOneResult
  | 0 => ⟨i, true, i⟩
  | r + 1 =>
    match env i with
    | .locked => cleanupOneFrom env (i + 1) r
    | _ => ⟨i + 1, false, i⟩

/-- The handling of a single path by `cleanup_temp_files` (`RFD_script.py`
lines 413-426): `for attempt in range(5)` with break on success and the
for-else recording failure. -/
def cleanup_one (env : Nat → AttemptOutcome) : CleanOneResult :=
  cleanupOneFrom env 0 5

/-- `cleanup_temp_files` (`RFD_script.py` lines 395-426): each path in the
list is handled independently by the bounded retry loop; the function never
raises. -/
def cleanup_temp_files (envs : List (Nat → AttemptOutcome)) : List CleanOneResult :=
  envs.map cleanup_one

/-- Specification-side projection: the path a row contributes to
`created_files`, if any. -/
def createdOf (proc : Nat → RowOutcome) (r : Nat) : Option String :=
  match proc r with
  | .created p _ => some p
  | _ => none

/-- Specification-side projection: the error entry a row contributes to
`error_files`, if any. -/
def errorOf (proc : Nat → RowOutcome) (r : Nat) : Option (Nat × String) :=
  match proc r with
  | .raised m => some (r, m)
  | _ => none

/-- Specification-side projection: the temp files a row registers for
cleanup. -/
def regsOf (proc : Nat → RowOutcome) (r : Nat) : List String :=
  match proc r with
  | .created _ regs => regs
  | _ => []

/-- Fixture row for claim C1: a fully populated record whose PDF export will
be forced to fail. -/
def c1Row : RowData := ⟨"Acme", "CERT7", "Jan to Mar 2025", some 10⟩

/-- Fixture table for claim C2: every row qualifies. -/
def c2Table : Nat → SourceRow := fun _ => ⟨"Acme", some (some 1)⟩

/-- Fixture extraction for claim C2: the volume cell is empty, so building
`update_data` raises `TypeError` inside the instantiator. -/
def c2RowData : Nat → RowData := fun _ => ⟨"Acme", "C77", "Jan to Mar 2025", none⟩

/-- Fixture table for claim C3's witness: row 2 qualifies, row 3 has an
empty name, row 4 has a non-coercible fraction cell, row 5 has an empty
fraction cell. -/
def c3Table : Nat → SourceRow := fun r =>
  if r = 2 then ⟨"Acme", some (some 1)⟩
  else if r = 3 then ⟨"", some (some 1)⟩
  else if r = 4 then ⟨"Beta", some none⟩
  else ⟨"Gamma", none⟩

/-- Fixture row for claim C6: processed with `keep_excel = true` and a
succeeding export. -/
def c6Row : RowData := ⟨"Beta", "CERT8", "Apr to Jun 2025", some 5⟩

/-- Fixture deletion environment for claim C7: the path is locked on the
first two attempts and gone (deleted externally) from the third on. -/
def c7EnvA : Nat → AttemptOutcome := fun k => if k < 2 then .locked else .absent

/-- Fixture deletion environment for claim C7: the path never becomes
deletable. -/
def c7EnvB : Nat → AttemptOutcome := fun _ => .locked

/-- Fixture table for claim C8's witness: rows 2 through 5 all qualify. -/
def c8Table : Nat → SourceRow := fun _ => ⟨"A", some (some 1)⟩

/-- Fixture per-row outcomes for claim C8's witness: one created row with a
registration, one raising row, one skipped row, one created row without
registrations. -/
def c8Proc : Nat → RowOutcome := fun r =>
  if r = 2 then .created "p2" ["t2"]
  else if r = 3 then .raised "boom"
  else if r = 4 then .skipped
  else .created "p5" []

/-- Fixture row for claim C9's witness. -/
def c9Row : RowData := ⟨"Acme", "CERT9", "Jan to Mar 2025", some 10⟩


/-- Appending on the left is injective for strings. -/
theorem string_append_right_inj (a x y : String) (h : a ++ x = a ++ y) : x = y := by
  have hd : a.data ++ x.data = a.data ++ y.data := by
    have := congrArg String.data h
    cases a; cases x; cases y
    exact this
  have h2 := List.append_cancel_left hd
  cases x; cases y
  exact congrArg String.mk h2

/-- A string starting with the temp-file marker differs from one starting
with the declaration-output marker. -/
theorem temp_marker_ne_output_marker (A B : String) :
    ("temp_" ++ A) ≠ ("Renewable_Fuel_Declaration - " ++ B) := by
  cases A with | mk ad =>
  cases B with | mk bd =>
  intro h
  have hd : ('t' :: 'e' :: 'm' :: 'p' :: '_' :: ad : List Char)
      = 'R' :: 'e' :: 'n' :: 'e' :: 'w' :: 'a' :: 'b' :: 'l' :: 'e' :: '_' :: 'F' :: 'u' :: 'e'
        :: 'l' :: '_' :: 'D' :: 'e' :: 'c' :: 'l' :: 'a' :: 'r' :: 'a' :: 't' :: 'i' :: 'o'
        :: 'n' :: ' ' :: '-' :: ' ' :: bd := congrArg String.data h
  injection hd with h1 _
  exact absurd h1 (by decide)

/-- The per-row temp path never coincides with a declaration output path in
the same folder. -/
theorem temp_excel_ne_declaration_output (f : String) (r : Nat) (scn scert sper scn2 ext : String) :
    temp_excel_file f r scn ≠ declaration_output_file f scert sper scn2 ext := by
  intro h
  exact temp_marker_ne_output_marker _ _ (string_append_right_inj (f ++ "/") _ _ h)

/-- The head of `dropWhile` does not satisfy the dropped predicate. -/
theorem head?_dropWhile_eq_false {α} (p : α → Bool) :
    ∀ (l : List α) (a : α), (l.dropWhile p).head? = some a → p a = false := by
  intro l
  induction l with
  | nil => intro a h; cases h
  | cons x xs ih =>
    intro a h
    rw [List.dropWhile_cons] at h
    by_cases hp : p x = true
    · rw [if_pos hp] at h
      exact ih a h
    · rw [if_neg hp] at h
      have : x = a := by simpa using h
      subst this
      simpa using hp

/-- The retry loop performs at most `r` further attempts. -/
theorem cleanupOneFrom_attempts_le (env : Nat → AttemptOutcome) :
    ∀ (r i : Nat), (cleanupOneFrom env i r).attempts ≤ i + r := by
  intro r
  induction r with
  | zero => intro i; simp [cleanupOneFrom]
  | succ r ih =>
    intro i
    cases h : env i with
    | locked =>
      have := ih (i + 1)
      simp only [cleanupOneFrom, h]
      omega
    | absent => simp [cleanupOneFrom, h]
    | removed => simp [cleanupOneFrom, h]

/-- If every remaining attempt finds the path locked, the loop exhausts its
range, records the path as undeleted, and sleeps after every attempt. -/
theorem cleanupOneFrom_all_locked (env : Nat → AttemptOutcome) :
    ∀ (r i : Nat), (∀ k, i ≤ k → k < i + r → env k = .locked) →
      cleanupOneFrom env i r = ⟨i + r, true, i + r⟩ := by
  intro r
  induction r with
  | zero => intro i _; simp [cleanupOneFrom]
  | succ r ih =>
    intro i h
    have hi : env i = .locked := h i (le_refl i) (by omega)
    simp only [cleanupOneFrom, hi]
    have := ih (i + 1) (fun k hk1 hk2 => h k (by omega) (by omega))
    rw [this]
    have harith : i + 1 + r = i + (r + 1) := by omega
    rw [harith]

/-- The loop stops at the first attempt that does not find the path locked,
having slept only after the failed attempts before it. -/
theorem cleanupOneFrom_break (env : Nat → AttemptOutcome) :
    ∀ (r i j : Nat), i ≤ j → j < i + r → (∀ k, i ≤ k → k < j → env k = .locked) →
      env j ≠ .locked → cleanupOneFrom env i r = ⟨j + 1, false, j⟩ := by
  intro r
  induction r with
  | zero => intro i j h1 h2 _ _; omega
  | succ r ih =>
    intro i j hij hjr hlock hj
    by_cases hij2 : i = j
    · subst hij2
      cases h : env i with
      | locked => exact absurd h hj
      | absent => simp [cleanupOneFrom, h]
      | removed => simp [cleanupOneFrom, h]
    · have hi : env i = .locked := hlock i (le_refl i) (by omega)
      simp only [cleanupOneFrom, hi]
      exact ih (i + 1) j (by omega) (by omega) (fun k hk1 hk2 => hlock k (by omega) hk2) hj

/-- The loop reports the path as undeleted exactly when every attempt in its
range finds the path locked. -/
theorem cleanupOneFrom_undeleted_iff (env : Nat → AttemptOutcome) :
    ∀ (r i : Nat), (cleanupOneFrom env i r).undeleted = true ↔
      ∀ k, i ≤ k → k < i + r → env k = .locked := by
  intro r
  induction r with
  | zero =>
    intro i
    simp only [cleanupOneFrom]
    constructor
    · intro _ k h1 h2; omega
    · intro _; trivial
  | succ r ih =>
    intro i
    cases h : env i with
    | locked =>
      simp only [cleanupOneFrom, h]
      rw [ih (i + 1)]
      constructor
      · intro ha k hk1 hk2
        rcases Nat.eq_or_lt_of_le hk1 with heq | hlt
        · rw [← heq]; exact h
        · exact ha k (by omega) (by omega)
      · intro ha k hk1 hk2
        exact ha k (by omega) (by omega)
    | absent =>
      simp only [cleanupOneFrom, h]
      constructor
      · intro hfalse; cases hfalse
      · intro ha
        have := ha i (le_refl i) (by omega)
        rw [h] at this
        exact absurd this (by decide)
    | removed =>
      simp only [cleanupOneFrom, h]
      constructor
      · intro hfalse; cases hfalse
      · intro ha
        have := ha i (le_refl i) (by omega)
        rw [h] at this
        exact absurd this (by decide)

/-- Unrolling the orchestrator fold: the accumulated lists are the initial
lists followed by the per-row contributions in row order. -/
theorem foldl_rowStep (proc : Nat → RowOutcome) :
    ∀ (rows : List Nat) (c : List String) (e : List (Nat × String)) (t : List String),
      rows.foldl (rowStep proc) (c, e, t) =
        (c ++ rows.filterMap (createdOf proc), e ++ rows.filterMap (errorOf proc),
         t ++ rows.flatMap (regsOf proc)) := by
  intro rows
  induction rows with
  | nil => intro c e t; simp
  | cons r rs ih =>
    intro c e t
    cases h : proc r with
    | skipped =>
      simp [rowStep, createdOf, errorOf, regsOf, h, ih]
    | created p regs =>
      simp [rowStep, createdOf, errorOf, regsOf, h, ih, List.append_assoc]
    | raised m =>
      simp [rowStep, createdOf, errorOf, regsOf, h, ih, List.append_assoc]

/-- The code's eligibility threshold literal equals one hundredth. -/
theorem mkRat_one_hundred : (mkRat 1 100 : ℚ) = 1 / 100 := by
  rw [Rat.mkRat_eq_div]
  norm_num

/-- C1: when the PDF export of a row fails with `save_as_pdf = true` and
`keep_excel = false`, `create_declaration_for_row` saves the fallback by
calling `wb.save()`, which writes the workbook in place at the transient
temp path; it then returns the secondary `.xlsm` output path even though no
file was ever saved at that path (contradicting the claim that the
transient artifact is saved at the returned secondary path).  Nothing is
registered for cleanup.  On primary success the primary PDF path is
returned. -/
theorem c1_pdf_failure_fallback_eval :
    create_declaration_for_row ⟨false⟩ c1Row 2 "out" true false true =
      ⟨some "out/Renewable_Fuel_Declaration - CERT7 - Jan to Mar 2025 - Acme.xlsm",
       ["out/temp_2_Renewable_Fuel_Declaration - Acme.xlsm",
        "out/temp_2_Renewable_Fuel_Declaration - Acme.xlsm"], []⟩
    ∧ "out/Renewable_Fuel_Declaration - CERT7 - Jan to Mar 2025 - Acme.xlsm" ∉
        (create_declaration_for_row ⟨false⟩ c1Row 2 "out" true false true).saved
    ∧ (create_declaration_for_row ⟨true⟩ c1Row 2 "out" true false true).ret =
        some "out/Renewable_Fuel_Declaration - CERT7 - Jan to Mar 2025 - Acme.pdf" := by
  refine ⟨by decide, by decide, by decide⟩

/-- C2 counterexample: a row whose volume cell is empty raises `TypeError`
while the fields are being written, but the broad `except` inside
`create_declaration_for_row` swallows it: the orchestrator records NO error
entry for the row and instead counts the returned (never saved) `.xlsm`
path as a created file — contradicting the claim that the error surfaces to
the caller with no document path recorded. -/
theorem c2_counterexample :
    (process_all_supply_blend_rows c2Table 2
        (rowOutcomeOfCreate ⟨true⟩ c2RowData "out" true false)).error_files = []
    ∧ (process_all_supply_blend_rows c2Table 2
        (rowOutcomeOfCreate ⟨true⟩ c2RowData "out" true false)).created_files =
      ["out/Renewable_Fuel_Declaration - C77 - Jan to Mar 2025 - Acme.xlsm"] := by
  refine ⟨by decide, by decide⟩

/-- C2 amended: for every row where an exception is raised while writing
fields into the transient copy before export (the volume attribute is
absent so rounding fails), the exception is caught inside
`create_declaration_for_row` by the broad `except` at line 270 and is NOT
surfaced to the orchestrator: the function saves nothing beyond the
template copy at the temp path, registers nothing for cleanup, and returns
the `.xlsm` output path (where no file exists), so the orchestrator records
the row as created, with no error entry. -/
theorem c2_amended_swallowed_write_error (env : Env) (rd : RowData) (r : Nat) (folder : String)
    (sp ke : Bool) (hname : rd.customer_name ≠ "") (hvol : rd.volume_of_fuel_supplied = none) :
    create_declaration_for_row env rd r folder sp ke true =
      ⟨some (declaration_output_file folder (sanitize_filename rd.certificate_number)
          (sanitize_filename rd.declaration_period) (sanitize_filename rd.customer_name) ".xlsm"),
       [temp_excel_file folder r (sanitize_filename rd.customer_name)], []⟩
    ∧ rowOutcomeOfCreate env (fun _ => rd) folder sp ke r =
        .created (declaration_output_file folder (sanitize_filename rd.certificate_number)
          (sanitize_filename rd.declaration_period) (sanitize_filename rd.customer_name) ".xlsm")
          [] := by
  constructor
  · simp [create_declaration_for_row, hname, hvol]
  · simp [rowOutcomeOfCreate, create_declaration_for_row, hname, hvol]

/-- Witness for C2's amended theorem at a concrete row. -/
theorem c2_witness :
    create_declaration_for_row ⟨true⟩ ⟨"Acme", "C77", "Jan to Mar 2025", none⟩ 2 "out"
        true false true =
      ⟨some (declaration_output_file "out" (sanitize_filename "C77")
          (sanitize_filename "Jan to Mar 2025") (sanitize_filename "Acme") ".xlsm"),
       [temp_excel_file "out" 2 (sanitize_filename "Acme")], []⟩ :=
  (c2_amended_swallowed_write_error ⟨true⟩ ⟨"Acme", "C77", "Jan to Mar 2025", none⟩ 2 "out"
    true false (by decide) rfl).1

/-- C3: the scanning pass returns exactly the row indices in 2..last whose
fraction cell is present and coerces to a number that is at least 1/100 and
whose name cell is non-empty, in ascending source order; rows failing
numeric coercion or with an absent cell are excluded without error. -/
theorem c3_eligible_rows_exact (table : Nat → SourceRow) (last_row : Nat) :
    (∀ r : Nat, r ∈ scanRows table last_row ↔
      (2 ≤ r ∧ r ≤ last_row ∧
        (∃ q : ℚ, (table r).ff_blend = some (some q) ∧ 1 / 100 ≤ q) ∧ (table r).name ≠ ""))
    ∧ (scanRows table last_row).Pairwise (· < ·) := by
  constructor
  · intro r
    rw [scanRows, List.mem_filter, List.mem_range'_1]
    constructor
    · rintro ⟨⟨h1, h2⟩, hq⟩
      refine ⟨h1, by omega, ?_, ?_⟩
      · cases hff : (table r).ff_blend with
        | none => simp [row_qualifies, hff] at hq
        | some o =>
          cases o with
          | none => simp [row_qualifies, hff] at hq
          | some q =>
            simp [row_qualifies, hff] at hq
            refine ⟨q, rfl, ?_⟩
            rw [← mkRat_one_hundred]
            exact hq.1
      · cases hff : (table r).ff_blend with
        | none => simp [row_qualifies, hff] at hq
        | some o =>
          cases o with
          | none => simp [row_qualifies, hff] at hq
          | some q =>
            simp [row_qualifies, hff] at hq
            exact hq.2
    · rintro ⟨h1, h2, ⟨q, hff, hq⟩, hname⟩
      have hmk : mkRat 1 100 ≤ q := by rw [mkRat_one_hundred]; exact hq
      refine ⟨⟨h1, by omega⟩, ?_⟩
      simp [row_qualifies, hff, hmk, hname]
  · exact List.Pairwise.sublist (List.filter_sublist _)
      (List.pairwise_lt_range' 2 (last_row - 1))

/-- Witness for C3 at a concrete table: a qualifying row is in the set, a
row with an empty name is not, and a row whose fraction cell fails numeric
coercion is silently excluded. -/
theorem c3_witness :
    2 ∈ scanRows c3Table 5 ∧ 3 ∉ scanRows c3Table 5 ∧ 4 ∉ scanRows c3Table 5 := by
  have h := c3_eligible_rows_exact c3Table 5
  refine ⟨?_, ?_, ?_⟩
  · exact (h.1 2).mpr ⟨by omega, by omega, ⟨1, rfl, by norm_num⟩, by decide⟩
  · intro hm
    have h3 := (h.1 3).mp hm
    exact h3.2.2.2 rfl
  · intro hm
    have h4 := (h.1 4).mp hm
    obtain ⟨q, hq, _⟩ := h4.2.2.1
    have : (c3Table 4).ff_blend = some none := rfl
    rw [this] at hq
    simp at hq

/-- C4 counterexample: "Jan to Feb to Mar 2025" does not match the
two-token " to "-separated shape the claim describes, yet the function does
not return it unmodified: the code uses the first two fragments of the
split and formats the string anyway. -/
theorem c4_counterexample :
    specTwoToken "Jan to Feb to Mar 2025" = false
    ∧ process_declaration_period "Jan to Feb to Mar 2025" =
        "2 months - Jan to Feb to Mar 2025"
    ∧ process_declaration_period "Jan to Feb to Mar 2025" ≠ "Jan to Feb to Mar 2025" := by
  refine ⟨by decide, by decide, by decide⟩

/-- C4 amended: `process_declaration_period` is total (never raises), and
returns `"<span> months - <original>"` exactly when the parse underlying
the code succeeds — the `" to "`-split yields at least two fragments, the
second fragment has a first word, and the stripped start token and that
word both occur in the abbreviation table (which includes the empty string
at index 0); on any parse failure the original string is returned
unmodified.  In particular "Jan to Mar 2025" formats to
"3 months - Jan to Mar 2025". -/
theorem c4_amended_period_format :
    (∀ s : String, process_declaration_period s =
      match periodSpan s with
      | some n => toString n ++ " months - " ++ s
      | none => s)
    ∧ process_declaration_period "Jan to Mar 2025" = "3 months - Jan to Mar 2025" := by
  constructor
  · intro s
    unfold process_declaration_period periodSpan
    cases hp : pySplitTo s with
    | nil => rfl
    | cons p0 t =>
      cases t with
      | nil => rfl
      | cons p1 rest =>
        cases hw : pyWords p1 with
        | nil => simp [hw]
        | cons w0 ws =>
          cases hi : monthAbbr.findIdx? (· == pyStrip p0) <;>
            cases hj : monthAbbr.findIdx? (· == pyStrip w0) <;> simp [hw, hi, hj]
  · decide

/-- Witness for C4's amended theorem: an unrecognized abbreviation makes the
parse fail and the input is returned unchanged. -/
theorem c4_witness :
    process_declaration_period "Xyz to Mar 2025" = "Xyz to Mar 2025" :=
  (c4_amended_period_format.1 "Xyz to Mar 2025").trans (by decide)

/-- C5 counterexample: sanitizing "O'Brien & Sons, Ltd." yields
"OBrien  Sons Ltd" (the two spaces around the stripped ampersand are both
retained), not the single-spaced "OBrien Sons Ltd" the claim states. -/
theorem c5_counterexample :
    sanitize_filename "O'Brien & Sons, Ltd." = "OBrien  Sons Ltd"
    ∧ sanitize_filename "O'Brien & Sons, Ltd." ≠ "OBrien Sons Ltd" := by
  refine ⟨by decide, by decide⟩

/-- C5 amended: `sanitize_filename` is a deterministic total function that
retains only alphanumeric characters, spaces, hyphens and underscores and
strips trailing whitespace; sanitizing "O'Brien & Sons, Ltd." yields
"OBrien  Sons Ltd" (with both spaces around the removed ampersand kept). -/
theorem c5_amended_sanitize :
    (∀ s : String, (∀ c ∈ (sanitize_filename s).data, keepChar c = true)
      ∧ (∀ c, (sanitize_filename s).data.getLast? = some c → isPySpace c = false))
    ∧ sanitize_filename "O'Brien & Sons, Ltd." = "OBrien  Sons Ltd" := by
  constructor
  · intro s
    constructor
    · intro c hc
      have h1 : c ∈ (s.data.filter keepChar).reverse.dropWhile isPySpace := by
        have := List.mem_reverse.mpr hc
        simpa [sanitize_filename, pyRstrip] using hc
      have h2 : c ∈ (s.data.filter keepChar).reverse :=
        (List.dropWhile_sublist _).subset h1
      have h3 : c ∈ s.data.filter keepChar := List.mem_reverse.mp h2
      exact (List.mem_filter.mp h3).2
    · intro c hc
      have h1 : ((s.data.filter keepChar).reverse.dropWhile isPySpace).head? = some c := by
        simpa [sanitize_filename, pyRstrip, List.getLast?_reverse] using hc
      exact head?_dropWhile_eq_false isPySpace _ c h1
  · decide

/-- Witness for C5's amended theorem: the first retained character of the
sanitized example satisfies the keep predicate. -/
theorem c5_witness : keepChar 'O' = true :=
  (c5_amended_sanitize.1 "O'Brien & Sons, Ltd.").1 'O' (by decide)

/-- C6 counterexample: with `keep_excel = true` and a succeeding export the
primary export succeeds (the PDF is saved and its path returned) yet the
transient artifact is NOT registered for cleanup, because the registration
condition also requires `keep_excel` to be false — refuting "registered
exactly when the primary export succeeds". -/
theorem c6_counterexample :
    create_declaration_for_row ⟨true⟩ c6Row 2 "out" true true true =
      ⟨some "out/Renewable_Fuel_Declaration - CERT8 - Apr to Jun 2025 - Beta.pdf",
       ["out/temp_2_Renewable_Fuel_Declaration - Beta.xlsm",
        "out/Renewable_Fuel_Declaration - CERT8 - Apr to Jun 2025 - Beta.pdf",
        "out/Renewable_Fuel_Declaration - CERT8 - Apr to Jun 2025 - Beta.xlsm"],
       []⟩ := by
  decide

/-- C6 amended: the transient artifact is registered for cleanup exactly
when a cleanup list was supplied, `save_as_pdf` is true, the export
succeeded, `keep_excel` is false, and the row was neither skipped (empty
name) nor hit by a field-writing exception (absent volume); in particular a
row whose primary export fails is never registered, and under the default
configuration (`save_as_pdf = true`, `keep_excel = false`) registration
happens iff the export succeeds. -/
theorem c6_amended_registration_iff (env : Env) (rd : RowData) (r : Nat) (folder : String)
    (sp ke hl : Bool) :
    (create_declaration_for_row env rd r folder sp ke hl).registered =
      (if hl = true ∧ sp = true ∧ env.exportOk = true ∧ ke = false
          ∧ rd.customer_name ≠ "" ∧ rd.volume_of_fuel_supplied ≠ none
       then [temp_excel_file folder r (sanitize_filename rd.customer_name)]
       else []) := by
  obtain ⟨ex⟩ := env
  by_cases hname : rd.customer_name = ""
  · simp [create_declaration_for_row, hname]
  · cases hv : rd.volume_of_fuel_supplied <;>
      cases sp <;> cases ke <;> cases hl <;> cases ex <;>
        simp [create_declaration_for_row, hname, hv]

/-- Witness for C6's amended theorem at a concrete successful default-mode
row. -/
theorem c6_witness :
    (create_declaration_for_row ⟨true⟩ c6Row 3 "out" true false true).registered =
      ["out/temp_3_Renewable_Fuel_Declaration - Beta.xlsm"] :=
  (c6_amended_registration_iff ⟨true⟩ c6Row 3 "out" true false true).trans (by decide)

/-- C7: `cleanup_temp_files` handles each listed path independently and
never raises; per path it performs at most 5 deletion attempts, records the
path as undeleted exactly when all 5 attempts find it locked (sleeping 1
second after each failure), stops at the first attempt that succeeds or
finds the path already gone (an absent path is success, not an error), and
on giving up has made exactly 5 attempts. -/
theorem c7_cleanup_retry_policy (l : List (Nat → AttemptOutcome)) (env : Nat → AttemptOutcome) :
    cleanup_temp_files l = l.map cleanup_one
    ∧ (cleanup_one env).attempts ≤ 5
    ∧ ((cleanup_one env).undeleted = true ↔ ∀ k, k < 5 → env k = .locked)
    ∧ (∀ j, j < 5 → (∀ k, k < j → env k = .locked) → env j ≠ .locked →
        cleanup_one env = ⟨j + 1, false, j⟩)
    ∧ ((∀ k, k < 5 → env k = .locked) → cleanup_one env = ⟨5, true, 5⟩) := by
  refine ⟨rfl, ?_, ?_, ?_, ?_⟩
  · simpa [cleanup_one] using cleanupOneFrom_attempts_le env 5 0
  · unfold cleanup_one
    rw [cleanupOneFrom_undeleted_iff env 5 0]
    constructor
    · intro h k hk
      exact h k (Nat.zero_le k) (by omega)
    · intro h k _ hk
      exact h k (by omega)
  · intro j hj hlock hjne
    exact cleanupOneFrom_break env 5 0 j (Nat.zero_le j) (by omega)
      (fun k _ hk => hlock k hk) hjne
  · intro h
    have := cleanupOneFrom_all_locked env 5 0 (fun k _ hk => h k (by omega))
    simpa [cleanup_one] using this

/-- Witness for C7: a path externally deleted after the second attempt
succeeds with 3 attempts and 2 sleeps; a path that never becomes deletable
is reported undeleted after exactly 5 attempts. -/
theorem c7_witness :
    cleanup_one c7EnvA = ⟨3, false, 2⟩ ∧ cleanup_one c7EnvB = ⟨5, true, 5⟩ := by
  constructor
  · exact (c7_cleanup_retry_policy [] c7EnvA).2.2.2.1 2 (by decide)
      (by intro k hk; interval_cases k <;> rfl) (by decide)
  · exact (c7_cleanup_retry_policy [] c7EnvB).2.2.2.2 (fun k _ => rfl)

/-- C8: the orchestrator processes the scanned rows strictly in order — the
created-file list, the error list, and the registered-artifact accumulator
are exactly the in-order per-row contributions, so a raised row is recorded
as an error entry while later rows still contribute — and the cleaner is
invoked exactly once, after all rows, with the accumulated registration
list. -/
theorem c8_batch_order_and_single_cleanup (table : Nat → SourceRow) (last_row : Nat)
    (proc : Nat → RowOutcome) :
    process_all_supply_blend_rows table last_row proc =
      ⟨(scanRows table last_row).filterMap (createdOf proc),
       (scanRows table last_row).filterMap (errorOf proc),
       [(scanRows table last_row).flatMap (regsOf proc)]⟩ := by
  simp only [process_all_supply_blend_rows]
  rw [foldl_rowStep]
  simp

/-- Witness for C8 on a concrete batch containing a created row, a raising
row and a skipped row. -/
theorem c8_witness :
    process_all_supply_blend_rows c8Table 5 c8Proc =
      ⟨["p2", "p5"], [(3, "boom")], [["t2"]]⟩ :=
  (c8_batch_order_and_single_cleanup c8Table 5 c8Proc).trans (by decide)

/-- C9: with `save_as_pdf = false` and `keep_excel = false`, every
non-skipped row saves only the transient template copy, yet the function
returns the `.xlsm` output path — a path at which nothing was saved — the
orchestrator counts the row as created, and the transient copy is never
registered for cleanup (so it remains on disk). -/
theorem c9_no_file_at_returned_path (env : Env) (rd : RowData) (r : Nat) (folder : String)
    (hname : rd.customer_name ≠ "") :
    (create_declaration_for_row env rd r folder false false true).ret =
        some (declaration_output_file folder (sanitize_filename rd.certificate_number)
          (sanitize_filename rd.declaration_period) (sanitize_filename rd.customer_name) ".xlsm")
    ∧ (create_declaration_for_row env rd r folder false false true).saved =
        [temp_excel_file folder r (sanitize_filename rd.customer_name)]
    ∧ (create_declaration_for_row env rd r folder false false true).registered = []
    ∧ declaration_output_file folder (sanitize_filename rd.certificate_number)
          (sanitize_filename rd.declaration_period) (sanitize_filename rd.customer_name) ".xlsm"
        ∉ (create_declaration_for_row env rd r folder false false true).saved
    ∧ rowOutcomeOfCreate env (fun _ => rd) folder false false r =
        .created (declaration_output_file folder (sanitize_filename rd.certificate_number)
          (sanitize_filename rd.declaration_period) (sanitize_filename rd.customer_name) ".xlsm")
          [] := by
  have hcreate : create_declaration_for_row env rd r folder false false true =
      ⟨some (declaration_output_file folder (sanitize_filename rd.certificate_number)
        (sanitize_filename rd.declaration_period) (sanitize_filename rd.customer_name) ".xlsm"),
       [temp_excel_file folder r (sanitize_filename rd.customer_name)], []⟩ := by
    cases hv : rd.volume_of_fuel_supplied <;> simp [create_declaration_for_row, hname, hv]
  refine ⟨by rw [hcreate], by rw [hcreate], by rw [hcreate], ?_, ?_⟩
  · rw [hcreate]
    intro h
    rw [List.mem_singleton] at h
    exact temp_excel_ne_declaration_output folder r _ _ _ _ _ h.symm
  · simp [rowOutcomeOfCreate, hcreate]

/-- Witness for C9 at a concrete row. -/
theorem c9_witness :
    (create_declaration_for_row ⟨true⟩ c9Row 2 "out" false false true).ret =
        some (declaration_output_file "out" (sanitize_filename "CERT9")
          (sanitize_filename "Jan to Mar 2025") (sanitize_filename "Acme") ".xlsm")
    ∧ (create_declaration_for_row ⟨true⟩ c9Row 2 "out" false false true).saved =
        [temp_excel_file "out" 2 (sanitize_filename "Acme")]
    ∧ (create_declaration_for_row ⟨true⟩ c9Row 2 "out" false false true).registered = []
    ∧ declaration_output_file "out" (sanitize_filename "CERT9")
          (sanitize_filename "Jan to Mar 2025") (sanitize_filename "Acme") ".xlsm"
        ∉ (create_declaration_for_row ⟨true⟩ c9Row 2 "out" false false true).saved
    ∧ rowOutcomeOfCreate ⟨true⟩ (fun _ => c9Row) "out" false false 2 =
        .created (declaration_output_file "out" (sanitize_filename "CERT9")
          (sanitize_filename "Jan to Mar 2025") (sanitize_filename "Acme") ".xlsm") [] :=
  c9_no_file_at_returned_path ⟨true⟩ c9Row 2 "out" (by decide)

/-- C10: the month-abbreviation table contains the empty string at index 0,
so an empty start token is accepted as ordinal 0 instead of being rejected:
" to Mar 2025" is formatted to "4 months -  to Mar 2025" rather than being
returned unchanged. -/
theorem c10_empty_month_token_accepted :
    monthAbbr.get? 0 = some ""
    ∧ process_declaration_period " to Mar 2025" = "4 months -  to Mar 2025"
    ∧ process_declaration_period " to Mar 2025" ≠ " to Mar 2025" := by
  refine ⟨rfl, by decide, by decide⟩
